import Mathlib

/-!
Verification development for the INGRES groundwater chatbot repository.

The repository has three Python source files:
  - app.py: the presentation layer; its only algorithmic content is the
    pure year extractor `extract_years`.
  - test_search.py: the query-resolution pipeline `search_ingres` with its
    staged matching (fuzzy state, fuzzy district, comparison detection,
    semantic fallback) and `semantic_search`.
  - build_embeddings.py: the offline index builder (cache-or-build of the
    FAISS index and the JSON metadata store) plus duplicate copies of
    `semantic_search` and `search_ingres`.

Shallow-embedding conventions used throughout:
  - Strings are Lean `String`; the Python string operations used by the code
    (`lower`, `strip`, `title`, substring containment via `in`, slicing
    `[:4]`, `int(...)`) are re-implemented over the character list so that
    everything reduces in the kernel.  They model the ASCII behaviour of the
    Python operations (the corpus names and all inputs of interest are
    ASCII).
  - Floating-point payload columns of the corpus are modelled as
    `Option Int` (present-or-missing exact numbers).  No claim inspects the
    numeric values; only their presence and pass-through matter.  The
    display-only `round(x, 2)` of Python is therefore not modelled.
  - The external fuzzy scorer `rapidfuzz.fuzz.WRatio` is an opaque parameter
    `scorer : String → String → Nat` producing a score on the 0–100 scale.
    `rapidfuzz.process.extractOne` (which the repository calls) is modelled
    faithfully: best score wins, first of equal scores wins, `None` only on
    an empty choice list.
  - The external sentence-embedding model is an opaque parameter
    `encode : String → List Int`; the FAISS `IndexFlatL2` is modelled
    concretely as the list of stored vectors, with `index.search` returning
    the `k` nearest stored vectors by squared Euclidean distance, padded
    with sentinel index `-1` when fewer than `k` vectors are stored (the
    documented FAISS behaviour the code relies on via its `idx == -1`
    check).
  - Fallible Python operations are embedded in `Except String`:
    dictionary indexing `META[str(idx)]` raises `KeyError` on a missing
    key, and `Series.astype(int)` raises `ValueError` on a non-numeric
    string.
  - Python `dict` keys can be of mixed type; the metadata store built by
    build_embeddings.py uses integer keys in memory but string keys after a
    JSON dump/load round trip.  `PyKey` models this distinction, which is
    essential to the builder claims.
-/

/-! ## Python string primitives (ASCII behaviour) -/

/-- Model of Python `str.lower()` (ASCII case folding). -/
def pyLower (s : String) : String := String.mk (s.data.map Char.toLower)

/-- Model of Python `str.strip()`: drop leading and trailing whitespace. -/
def pyStrip (s : String) : String :=
  String.mk (((s.data.dropWhile Char.isWhitespace).reverse.dropWhile
    Char.isWhitespace).reverse)

/-- Helper for `pyTitle`: the boolean argument records whether the previous
character was a letter (Python title() starts a new word after any
non-letter). -/
def pyTitleGo : Bool → List Char → List Char
  | _, [] => []
  | prevAlpha, c :: cs =>
      (if c.isAlpha then (if prevAlpha then c.toLower else c.toUpper) else c)
        :: pyTitleGo c.isAlpha cs

/-- Model of Python `str.title()` (ASCII: words are maximal letter runs;
first letter uppercased, the rest lowercased). -/
def pyTitle (s : String) : String := String.mk (pyTitleGo false s.data)

/-- Prefix test on character lists. -/
def startsWithList : List Char → List Char → Bool
  | [], _ => true
  | _ :: _, [] => false
  | a :: as, b :: bs => a == b && startsWithList as bs

/-- Model of Python substring containment `needle in hay`. -/
def containsSub (needle : List Char) : List Char → Bool
  | [] => needle.isEmpty
  | b :: bs => startsWithList needle (b :: bs) || containsSub needle bs

/-- Numeric value of a decimal digit list (all characters assumed digits). -/
def digitsVal (cs : List Char) : Nat :=
  cs.foldl (fun a c => a * 10 + (c.toNat - 48)) 0

/-- Model of Python `int(s[:4])` as used by the year filter
(`assessment_year.str[:4].astype(int)`): take the first four characters and
parse them as a decimal number; `none` models the `ValueError` raised on a
non-numeric or empty prefix.  Sign-prefixed forms are not modelled (no
assessment label starts with a sign). -/
def parseYear4 (s : String) : Option Nat :=
  let t := s.data.take 4
  if t.length > 0 && t.all Char.isDigit then some (digitsVal t) else none

/-! ## app.py: `extract_years`

The source uses two regular expressions over the raw query:
`(\b\d{4})\s*-\s*(\d{4}\b)` for ranges and `\b\d{4}\b` for standalone
years, scanned left to right with non-overlapping matches.  The scanners
below embed exactly those patterns (`\w` and `\s` restricted to ASCII). -/

/-- Python regex word character, ASCII fragment of `\w`. -/
def isWordChar (c : Char) : Bool := c.isAlphanum || c == '_'

/-- Word-character test on an optional character (absent = not a word
character). -/
def isWordCharOpt : Option Char → Bool
  | some c => isWordChar c
  | none => false

/-- Word boundary `\b` immediately before position `i`, where position `i`
holds a word character: true iff the previous position is absent or not a
word character. -/
def noWordBefore (cs : List Char) : Nat → Bool
  | 0 => true
  | j + 1 => !(isWordCharOpt cs[j]?)

/-- Word boundary `\b` immediately after a word character ending at
position `i - 1`: true iff position `i` is absent or not a word
character. -/
def noWordAt (cs : List Char) (i : Nat) : Bool := !(isWordCharOpt cs[i]?)

/-- Four decimal digits starting at position `i`, returning their value. -/
def num4At (cs : List Char) (i : Nat) : Option Nat :=
  match cs[i]?, cs[i+1]?, cs[i+2]?, cs[i+3]? with
  | some a, some b, some c, some d =>
      if a.isDigit && b.isDigit && c.isDigit && d.isDigit then
        some (digitsVal [a, b, c, d])
      else none
  | _, _, _, _ => none

/-- Fueled whitespace skip (`\s*`), returning the first non-whitespace
position at or after `i`. -/
def skipWsAux (cs : List Char) : Nat → Nat → Nat
  | 0, i => i
  | f + 1, i =>
      match cs[i]? with
      | some c => if c.isWhitespace then skipWsAux cs f (i + 1) else i
      | none => i

/-- Whitespace skip with enough fuel for the whole list. -/
def skipWs (cs : List Char) (i : Nat) : Nat := skipWsAux cs cs.length i

/-- Match of `(\b\d{4})\s*-\s*(\d{4}\b)` anchored at position `i`; returns
`(start year, end year, end position of the match)`. -/
def matchRangeAt (cs : List Char) (i : Nat) : Option (Nat × Nat × Nat) :=
  if noWordBefore cs i then
    match num4At cs i with
    | some a =>
        let j := skipWs cs (i + 4)
        match cs[j]? with
        | some h =>
            if h == '-' then
              let k := skipWs cs (j + 1)
              match num4At cs k with
              | some b => if noWordAt cs (k + 4) then some (a, b, k + 4) else none
              | none => none
            else none
        | none => none
    | none => none
  else none

/-- Match of `\b\d{4}\b` anchored at position `i`; returns
`(year, end position)`. -/
def matchSingleAt (cs : List Char) (i : Nat) : Option (Nat × Nat) :=
  if noWordBefore cs i then
    match num4At cs i with
    | some a => if noWordAt cs (i + 4) then some (a, i + 4) else none
    | none => none
  else none

/-- Left-to-right non-overlapping scan for range matches (the semantics of
`re.findall` for a non-empty-width pattern), fueled by the list length. -/
def scanRangesAux (cs : List Char) : Nat → Nat → List (Nat × Nat)
  | 0, _ => []
  | f + 1, i =>
      if i < cs.length then
        match matchRangeAt cs i with
        | some (a, b, e) => (a, b) :: scanRangesAux cs f e
        | none => scanRangesAux cs f (i + 1)
      else []

/-- All matches of the year-range pattern, in order of occurrence. -/
def scanRanges (cs : List Char) : List (Nat × Nat) :=
  scanRangesAux cs (cs.length + 1) 0

/-- Left-to-right non-overlapping scan for standalone year matches. -/
def scanSinglesAux (cs : List Char) : Nat → Nat → List Nat
  | 0, _ => []
  | f + 1, i =>
      if i < cs.length then
        match matchSingleAt cs i with
        | some (a, e) => a :: scanSinglesAux cs f e
        | none => scanSinglesAux cs f (i + 1)
      else []

/-- All matches of the standalone-year pattern, in order of occurrence. -/
def scanSingles (cs : List Char) : List Nat :=
  scanSinglesAux cs (cs.length + 1) 0

/-- Expansion of `range(int(start), int(end)+1)` for every matched range,
concatenated in order (`years.extend(...)` in the source). -/
def rangeYears : List (Nat × Nat) → List Nat
  | [] => []
  | p :: ps => List.range' p.1 (p.2 + 1 - p.1) ++ rangeYears ps

/-- Coverage test of the source: `int(y) in range(int(s), int(e)+1)` for
some matched range `(s, e)`. -/
def coveredByAny (ranges : List (Nat × Nat)) (y : Nat) : Bool :=
  ranges.any (fun p => p.1 ≤ y && y ≤ p.2)

/-- Model of `extract_years` (app.py lines 41–50): expand every matched
range, append every standalone year not covered by a matched range, then
`sorted(set(years))` — here: deduplicate and sort ascending (any
first/last-occurrence choice of the deduplication is erased by the sort, so
`List.dedup` is a faithful model of Python `set`). -/
def extract_years (query : String) : List Nat :=
  let cs := query.data
  let ranges := scanRanges cs
  let singles := scanSingles cs
  let years := rangeYears ranges ++
    singles.filter (fun y => !(coveredByAny ranges y))
  List.insertionSort (· ≤ ·) years.dedup

/-! ## Data model (test_search.py / build_embeddings.py) -/

/-- One corpus row.  Only the columns the resolution pipeline reads are
modelled; the three numeric columns are display payload carried through
unchanged (`Option Int` models a present-or-missing exact value in place of
a float). -/
structure Row where
  state : String
  district : String
  assessment_year : String
  stage_of_extraction_pct_total : Option Int
  annual_extractable_resource_ham_total : Option Int
  annual_extraction_ham_total : Option Int
  category_derived : String
deriving DecidableEq

/-- Denormalized metadata snapshot of a row, as stored in the metadata
file by build_embeddings.py (lines 48–56). -/
structure Snapshot where
  district : String
  state : String
  assessment_year : String
  stage_of_extraction_pct_total : Option Int
  annual_extractable_resource_ham_total : Option Int
  annual_extraction_ham_total : Option Int
  category_derived : String
deriving DecidableEq

/-- A key of a Python `dict`: the metadata store is built with integer keys
in memory and holds string keys after a JSON dump/load round trip. -/
inductive PyKey where
  | pint : Int → PyKey
  | pstr : String → PyKey
deriving DecidableEq

/-- One scored hit returned by `semantic_search` (test_search.py lines
61–71).  `stage` and `remaining_groundwater` are carried exactly (the
display-only `round(·, 2)` of the source is the identity on the exact
integer payload model); `score` is the squared Euclidean distance. -/
structure Hit where
  district : String
  state : String
  year : String
  stage : Option Int
  remaining_groundwater : Int
  category : String
  score : Int
deriving DecidableEq

/-- Result dictionary of `search_ingres`: `{"type": ..., "region": ...,
"data": ...}`. -/
structure QueryResult where
  type : String
  region : String
  data : List Row
deriving DecidableEq

/-! ## rapidfuzz model -/

/-- Model of `rapidfuzz.process.extractOne(query, choices, scorer)`:
returns the best-scoring choice together with its score (the first of
equally scoring choices, as rapidfuzz does), and `none` exactly when the
choice list is empty. -/
def extractOne (scorer : String → String → Nat) (q : String) :
    List String → Option (String × Nat)
  | [] => none
  | c :: cs =>
      match extractOne scorer q cs with
      | none => some (c, scorer q c)
      | some p => if scorer q c ≥ p.2 then some (c, scorer q c) else some p

/-- Combined `match = extractOne(...)` plus `if match and match[1] > 70`
acceptance test used by both fuzzy stages of `search_ingres`. -/
def acceptOf (scorer : String → String → Nat) (q : String)
    (choices : List String) : Option String :=
  match extractOne scorer q choices with
  | some p => if p.2 > 70 then some p.1 else none
  | none => none

/-- State vocabulary `[s.lower() for s in df["state"].unique()]`:
distinct values in first-occurrence order, then case-folded. -/
def stateChoices (df : List Row) : List String :=
  ((df.map Row.state).eraseDups).map pyLower

/-- District vocabulary `[d.lower() for d in df["district"].unique()]`. -/
def districtChoices (df : List Row) : List String :=
  ((df.map Row.district).eraseDups).map pyLower

/-- Comparison-stage collection (test_search.py lines 110–113): every
distinct district name whose case-folded form is a literal substring of the
case-folded query, in first-occurrence order, kept in original case. -/
def matchedDistricts (df : List Row) (queryLower : String) : List String :=
  ((df.map Row.district).eraseDups).filter
    (fun d => containsSub (pyLower d).data queryLower.data)

/-! ## FAISS `IndexFlatL2` model and `semantic_search` -/

/-- Indexing helper: pair every element with its 0-based position. -/
def enumFrom (k : Nat) : List α → List (Nat × α)
  | [] => []
  | a :: as => (k, a) :: enumFrom (k + 1) as

/-- Squared Euclidean distance of two vectors (equal length at use). -/
def sqDist (v w : List Int) : Int :=
  ((v.zip w).map (fun p => (p.1 - p.2) * (p.1 - p.2))).foldl (· + ·) 0

/-- Model of `faiss.IndexFlatL2.search` for one query vector: all stored
vectors scored by squared Euclidean distance, sorted ascending (stable, so
equal distances keep index order), truncated to `k` results and padded with
the documented sentinel index `-1` when fewer than `k` vectors are
stored. -/
def indexSearch (db : List (List Int)) (qv : List Int) (k : Nat) :
    List (Int × Int) :=
  let scored := (enumFrom 0 db).map (fun p => (sqDist p.2 qv, (p.1 : Int)))
  let sorted := List.insertionSort (fun a b => a.1 ≤ b.1) scored
  sorted.take k ++ List.replicate (k - db.length) (0, -1)

/-- Lookup in the metadata store: first binding of the key, as in a Python
`dict` (which holds at most one binding per key). -/
def lookupMeta : List (PyKey × Snapshot) → PyKey → Option Snapshot
  | [], _ => none
  | p :: rest, k => if p.1 == k then some p.2 else lookupMeta rest k

/-- Hit dictionary built from one metadata snapshot (test_search.py lines
61–71): `m.get(...)` field reads, with `remaining_groundwater` computed
from the two extraction fields using default `0` for a missing value. -/
def hitOfMeta (dist : Int) (m : Snapshot) : Hit :=
  { district := m.district
    state := m.state
    year := m.assessment_year
    stage := m.stage_of_extraction_pct_total
    remaining_groundwater :=
      m.annual_extractable_resource_ham_total.getD 0 -
        m.annual_extraction_ham_total.getD 0
    category := m.category_derived
    score := dist }

/-- Loop body of `semantic_search` (test_search.py lines 57–71): skip the
`-1` sentinel, then index the metadata store with `str(idx)` — a missing
key raises `KeyError`, embedded as `Except.error`. -/
def collectHits : List (Int × Int) → List (PyKey × Snapshot) →
    Except String (List Hit)
  | [], _ => Except.ok []
  | (dist, idx) :: rest, META =>
      if idx == -1 then collectHits rest META
      else
        match lookupMeta META (PyKey.pstr (toString idx)) with
        | none => Except.error ("KeyError: " ++ toString idx)
        | some m => (collectHits rest META).map (fun hs => hitOfMeta dist m :: hs)

/-- Model of `semantic_search(query, top_k)` (test_search.py lines 53–72):
encode the raw query, search the index, build the hit list.  The call in
`search_ingres` uses the default `top_k = 5`. -/
def semantic_search (encode : String → List Int) (db : List (List Int))
    (META : List (PyKey × Snapshot)) (query : String) (topK : Nat) :
    Except String (List Hit) :=
  collectHits (indexSearch db (encode query) topK) META

/-! ## `search_ingres` -/

/-- Model of `year_filter = requested_years if requested_years else []`:
Python truthiness makes both `None` and the empty list yield `[]`. -/
def yearFilterOf : Option (List Nat) → List Nat
  | none => []
  | some l => if l.isEmpty then [] else l

/-- Model of `context_df["assessment_year"].str[:4].astype(int)`: parse
every row of the subset, failing (`ValueError`) on the first row whose
leading characters are not a numeric year. -/
def astypeYear : List Row → Except String (List (Row × Nat))
  | [] => Except.ok []
  | r :: rs =>
      match parseYear4 r.assessment_year with
      | none => Except.error "ValueError: invalid literal for int"
      | some y => (astypeYear rs).map (fun ps => (r, y) :: ps)

/-- Year filtering step applied by every accepting stage:
`if year_filter: context_df = context_df[...isin(year_filter)]`. -/
def applyYearFilter (yf : List Nat) (ctx : List Row) :
    Except String (List Row) :=
  if yf.isEmpty then Except.ok ctx
  else (astypeYear ctx).map
    (fun ps => (ps.filter (fun p => yf.contains p.2)).map (fun p => p.1))

/-- Model of `search_ingres(query, requested_years)` (test_search.py lines
77–129).  Parameters `scorer`, `encode`, `db`, `META` stand for the
process-wide external collaborators: the rapidfuzz scorer, the embedding
model, the stored FAISS vectors and the loaded metadata store. -/
def search_ingres (df : List Row) (scorer : String → String → Nat)
    (encode : String → List Int) (db : List (List Int))
    (META : List (PyKey × Snapshot)) (query : String)
    (requestedYears : Option (List Nat)) : Except String QueryResult :=
  let queryLower := pyStrip (pyLower query)
  let yearFilter := yearFilterOf requestedYears
  match acceptOf scorer queryLower (stateChoices df) with
  | some best =>
      let stateName := pyTitle best
      (applyYearFilter yearFilter
          (df.filter (fun r => pyLower r.state == pyLower stateName))).map
        (fun ctx => ⟨"state", stateName, ctx⟩)
  | none =>
  match acceptOf scorer queryLower (districtChoices df) with
  | some best =>
      let distName := pyTitle best
      (applyYearFilter yearFilter
          (df.filter (fun r => pyLower r.district == pyLower distName))).map
        (fun ctx => ⟨"district", distName, ctx⟩)
  | none =>
  if containsSub "compare".data queryLower.data = true ∧
      2 ≤ (matchedDistricts df queryLower).length then
    (applyYearFilter yearFilter
        (df.filter (fun r => (matchedDistricts df queryLower).contains r.district))).map
      (fun ctx => ⟨"compare", "Compared Districts", ctx⟩)
  else
    match semantic_search encode db META query 5 with
    | Except.error e => Except.error e
    | Except.ok results =>
        match results with
        | best :: _ =>
            (applyYearFilter yearFilter
                (df.filter (fun r =>
                  r.district == best.district && r.state == best.state))).map
              (fun ctx => ⟨"semantic", best.district, ctx⟩)
        | [] => Except.ok ⟨"none", "", []⟩

/-! ## build_embeddings.py: the index builder -/

/-- Snapshot of one row as built by the metadata loop (build_embeddings.py
lines 48–56). -/
def snapOf (r : Row) : Snapshot :=
  { district := r.district
    state := r.state
    assessment_year := r.assessment_year
    stage_of_extraction_pct_total := r.stage_of_extraction_pct_total
    annual_extractable_resource_ham_total := r.annual_extractable_resource_ham_total
    annual_extraction_ham_total := r.annual_extraction_ham_total
    category_derived := r.category_derived }

/-- In-memory metadata store of the fresh-build branch (build_embeddings.py
lines 46–56): `META[i] = {...}` with the **integer** row index `i` of
`df.iterrows()` as the key. -/
def buildMetaFresh (df : List Row) : List (PyKey × Snapshot) :=
  (enumFrom 0 df).map (fun p => (PyKey.pint (p.1 : Int), snapOf p.2))

/-- Key conversion performed by the JSON dump/load round trip
(`json.dump` writes integer dict keys as decimal strings; `json.load`
yields string keys). -/
def jsonKeyFix : PyKey → PyKey
  | PyKey.pint n => PyKey.pstr (toString n)
  | PyKey.pstr s => PyKey.pstr s

/-- Metadata store as persisted to / reloaded from `META_PATH`. -/
def dumpLoadMeta (m : List (PyKey × Snapshot)) : List (PyKey × Snapshot) :=
  m.map (fun p => (jsonKeyFix p.1, p.2))

/-- Persisted artifacts on disk: the FAISS index file and the metadata
file, each either absent or holding its content. -/
structure DiskState where
  indexFile : Option (List (List Int))
  metaFile : Option (List (PyKey × Snapshot))
deriving DecidableEq

/-- Descriptive corpus sentence of one row (build_embeddings.py line 35):
`district + ", " + state + ", " + assessment_year`. -/
def corpusSentence (r : Row) : String :=
  r.district ++ ", " ++ r.state ++ ", " ++ r.assessment_year

/-- Model of the load-or-build block of build_embeddings.py (lines 26–59):
if both artifact files exist, read them and leave the disk untouched;
otherwise encode the corpus, build the index, and write both files.
Returns the disk state after the operation together with the in-memory
index and metadata store the rest of the module uses. -/
def buildOrLoad (disk : DiskState) (df : List Row)
    (encode : String → List Int) :
    DiskState × List (List Int) × List (PyKey × Snapshot) :=
  match disk.indexFile, disk.metaFile with
  | some idx, some meta => (disk, idx, meta)
  | _, _ =>
      let embeddings := (df.map corpusSentence).map encode
      let meta := buildMetaFresh df
      (⟨some embeddings, some (dumpLoadMeta meta)⟩, embeddings, meta)
/-! ## Helper lemmas -/

lemma mem_rangeYears {rs : List (Nat × Nat)} {y : Nat} :
    y ∈ rangeYears rs ↔ ∃ p ∈ rs, p.1 ≤ y ∧ y ≤ p.2 := by
  induction rs with
  | nil => simp [rangeYears]
  | cons hd tl ih =>
      simp only [rangeYears]
      constructor
      · intro h
        rcases List.mem_append.mp h with h1 | h1
        · rw [List.mem_range'] at h1
          obtain ⟨i, hi, hy⟩ := h1
          exact ⟨hd, List.mem_cons_self _ _, by omega, by omega⟩
        · obtain ⟨q, hq, h2⟩ := ih.mp h1
          exact ⟨q, List.mem_cons_of_mem _ hq, h2⟩
      · rintro ⟨q, hq, h1, h2⟩
        rcases List.mem_cons.mp hq with h3 | h3
        · subst h3
          refine List.mem_append.mpr (Or.inl ?_)
          rw [List.mem_range']
          exact ⟨y - q.1, by omega, by omega⟩
        · exact List.mem_append.mpr (Or.inr (ih.mpr ⟨q, h3, h1, h2⟩))

lemma coveredByAny_eq_true {rs : List (Nat × Nat)} {y : Nat} :
    coveredByAny rs y = true ↔ ∃ p ∈ rs, p.1 ≤ y ∧ y ≤ p.2 := by
  simp [coveredByAny, List.any_eq_true]

/-- C2: the year extractor returns the ascending-sorted duplicate-free set
made of every year covered by a matched range plus every standalone year
not covered by a matched range; the three spec examples hold; the function
is pure, hence deterministic and idempotent as a set operation. -/
theorem extract_years_spec :
    extract_years "2015-2018" = [2015, 2016, 2017, 2018] ∧
    extract_years "in 2015 and 2020" = [2015, 2020] ∧
    extract_years "no year here" = [] ∧
    (∀ q : String, List.Sorted (· < ·) (extract_years q)) ∧
    (∀ q : String, ∀ y : Nat,
      y ∈ extract_years q ↔
        ((∃ p ∈ scanRanges q.data, p.1 ≤ y ∧ y ≤ p.2) ∨
          (y ∈ scanSingles q.data ∧
            ∀ p ∈ scanRanges q.data, ¬(p.1 ≤ y ∧ y ≤ p.2)))) ∧
    (∀ q : String, extract_years q = extract_years q) := by
  refine ⟨by decide, by decide, by decide, ?_, ?_, fun _ => rfl⟩
  · intro q
    have hnd : (extract_years q).Nodup := by
      unfold extract_years
      exact ((List.perm_insertionSort _ _).symm).nodup (List.nodup_dedup _)
    have hle : (extract_years q).Sorted (· ≤ ·) := by
      unfold extract_years
      exact List.sorted_insertionSort _ _
    exact hle.lt_of_le hnd
  · intro q y
    unfold extract_years
    simp only [List.mem_insertionSort, List.mem_dedup, List.mem_append,
      List.mem_filter, mem_rangeYears, Bool.not_eq_true']
    constructor
    · rintro (h | ⟨h1, h2⟩)
      · exact Or.inl h
      · refine Or.inr ⟨h1, ?_⟩
        intro p hp hcov
        have hc : coveredByAny (scanRanges q.data) y = true :=
          coveredByAny_eq_true.mpr ⟨p, hp, hcov⟩
        rw [h2] at hc
        exact Bool.false_ne_true hc
    · rintro (h | ⟨h1, h2⟩)
      · exact Or.inl h
      · refine Or.inr ⟨h1, ?_⟩
        cases hcv : coveredByAny (scanRanges q.data) y with
        | false => rfl
        | true =>
            obtain ⟨p, hp, hc⟩ := coveredByAny_eq_true.mp hcv
            exact absurd hc (h2 p hp)

/-- C8: when both artifact files already exist, the builder loads them and
performs no write: the disk state is returned unchanged and the result does
not depend on the corpus or on the encoder (the encode-and-build step is
skipped entirely). -/
theorem buildOrLoad_skips_when_cached (disk : DiskState)
    (idx : List (List Int)) (meta : List (PyKey × Snapshot))
    (h1 : disk.indexFile = some idx) (h2 : disk.metaFile = some meta) :
    ∀ (df : List Row) (encode : String → List Int),
      buildOrLoad disk df encode = (disk, idx, meta) := by
  intro df encode
  cases disk with
  | mk i m =>
      simp only at h1 h2
      subst h1; subst h2
      rfl

theorem buildOrLoad_skips_when_cached_witness :
    buildOrLoad ⟨some [[1, 2]], some [(PyKey.pstr "0",
        ⟨"Pune", "Maharashtra", "2022-2023", none, none, none, "Safe"⟩)]⟩
      [⟨"Kerala", "Idukki", "2023-2024", none, none, none, "Safe"⟩]
      (fun _ => [7]) =
    (⟨some [[1, 2]], some [(PyKey.pstr "0",
        ⟨"Pune", "Maharashtra", "2022-2023", none, none, none, "Safe"⟩)]⟩,
      [[1, 2]], [(PyKey.pstr "0",
        ⟨"Pune", "Maharashtra", "2022-2023", none, none, none, "Safe"⟩)]) :=
  buildOrLoad_skips_when_cached _ _ _ rfl rfl _ _

/-- C9: passing an empty requested-years list is identical to passing no
years at all: Python truthiness collapses both to an empty year filter, so
the whole result coincides. -/
theorem search_ingres_empty_years_eq_none (df : List Row)
    (scorer : String → String → Nat) (encode : String → List Int)
    (db : List (List Int)) (META : List (PyKey × Snapshot)) (query : String) :
    search_ingres df scorer encode db META query (some []) =
    search_ingres df scorer encode db META query none := rfl
deriving instance DecidableEq for Except
/-- C1: state resolution is attempted first: the case-folded query is
scored against the distinct case-folded state vocabulary and the best entry
is accepted iff its score exceeds 70.  On acceptance the result is kind
"state" with the matched name title-cased as region and exactly the rows
whose state equals that name case-insensitively, for every semantic
backend (so neither district resolution nor the semantic fallback is ever
consulted); when the best score does not exceed 70 no result of kind
"state" can be produced. -/
theorem search_ingres_state_priority (df : List Row)
    (scorer : String → String → Nat) (query best : String) (score : Nat)
    (hE : extractOne scorer (pyStrip (pyLower query)) (stateChoices df) =
      some (best, score)) :
    (score > 70 →
      ∀ (encode : String → List Int) (db : List (List Int))
        (META : List (PyKey × Snapshot)),
        search_ingres df scorer encode db META query none =
          Except.ok ⟨"state", pyTitle best,
            df.filter (fun r => pyLower r.state == pyLower (pyTitle best))⟩) ∧
    (¬ score > 70 →
      ∀ (encode : String → List Int) (db : List (List Int))
        (META : List (PyKey × Snapshot)) (ry : Option (List Nat))
        (res : QueryResult),
        search_ingres df scorer encode db META query ry = Except.ok res →
          res.type ≠ "state") := by
  constructor
  · intro hgt encode db META
    have hA : acceptOf scorer (pyStrip (pyLower query)) (stateChoices df) =
        some best := by
      simp [acceptOf, hE, hgt]
    simp [search_ingres, hA, applyYearFilter, yearFilterOf, Except.map]
  · intro hgt encode db META ry res hres
    have hA : acceptOf scorer (pyStrip (pyLower query)) (stateChoices df) =
        none := by
      simp [acceptOf, hE, hgt]
    simp only [search_ingres, hA, Except.map] at hres
    repeat' split at hres
    all_goals try simp at hres
    all_goals (cases hres; simp)
/-- Concrete three-row corpus used by the witnesses: two Karnataka rows and
one Maharashtra row. -/
def dfKar : List Row :=
  [⟨"Karnataka", "Bengaluru Urban", "2022-2023", none, none, none, "Safe"⟩,
   ⟨"Karnataka", "Mysuru", "2023-2024", none, none, none, "Safe"⟩,
   ⟨"Maharashtra", "Pune", "2022-2023", none, none, none, "Over-Exploited"⟩]

/-- Concrete scorer instance used by the witnesses: scores the vocabulary
entry "karnataka" at 95 and everything else at 10. -/
def scKar : String → String → Nat :=
  fun _ c => if c == "karnataka" then 95 else 10

theorem search_ingres_state_priority_witness :
    extractOne scKar (pyStrip (pyLower "karnataka groundwater"))
        (stateChoices dfKar) = some ("karnataka", 95) ∧
    95 > 70 ∧
    search_ingres dfKar scKar (fun _ => []) [] [] "karnataka groundwater"
        none =
      Except.ok ⟨"state", "Karnataka",
        [⟨"Karnataka", "Bengaluru Urban", "2022-2023", none, none, none, "Safe"⟩,
         ⟨"Karnataka", "Mysuru", "2023-2024", none, none, none, "Safe"⟩]⟩ := by
  refine ⟨by decide, by decide, ?_⟩
  have h := (search_ingres_state_priority dfKar scKar "karnataka groundwater"
    "karnataka" 95 (by decide)).1 (by decide) (fun _ => []) [] []
  rw [h]
  decide
/-- C5: under declined state and district stages, the comparison stage
accepts iff the case-folded query contains the literal "compare" and at
least two distinct district names occur literally (case-folded) in it; on
acceptance the result is kind "compare" with the fixed region label
"Compared Districts" and the union of all rows of the matched districts;
otherwise no result of kind "compare" can be produced. -/
theorem search_ingres_compare_stage (df : List Row)
    (scorer : String → String → Nat) (encode : String → List Int)
    (db : List (List Int)) (META : List (PyKey × Snapshot)) (query : String)
    (hS : acceptOf scorer (pyStrip (pyLower query)) (stateChoices df) = none)
    (hD : acceptOf scorer (pyStrip (pyLower query)) (districtChoices df) = none) :
    (containsSub "compare".data (pyStrip (pyLower query)).data = true ∧
        2 ≤ (matchedDistricts df (pyStrip (pyLower query))).length →
      search_ingres df scorer encode db META query none =
        Except.ok ⟨"compare", "Compared Districts",
          df.filter (fun r =>
            (matchedDistricts df (pyStrip (pyLower query))).contains r.district)⟩) ∧
    (¬(containsSub "compare".data (pyStrip (pyLower query)).data = true ∧
        2 ≤ (matchedDistricts df (pyStrip (pyLower query))).length) →
      ∀ res : QueryResult,
        search_ingres df scorer encode db META query none = Except.ok res →
          res.type ≠ "compare") := by
  constructor
  · intro hc
    simp only [search_ingres, hS, hD, if_pos hc]
    simp [applyYearFilter, yearFilterOf, Except.map]
  · intro hc res hres
    simp only [search_ingres, hS, hD, if_neg hc, Except.map] at hres
    repeat' split at hres
    all_goals try simp at hres
    all_goals (cases hres; simp)

/-- Concrete two-district corpus for the comparison witnesses. -/
def dfCmp : List Row :=
  [⟨"Maharashtra", "Pune", "2022-2023", none, none, none, "Safe"⟩,
   ⟨"Maharashtra", "Nagpur", "2022-2023", none, none, none, "Critical"⟩,
   ⟨"Maharashtra", "Pune", "2023-2024", none, none, none, "Safe"⟩]

/-- Concrete scorer instance that declines every fuzzy stage. -/
def scZero : String → String → Nat := fun _ _ => 0

theorem search_ingres_compare_stage_witness :
    (containsSub "compare".data
        (pyStrip (pyLower "compare pune and nagpur")).data = true ∧
      2 ≤ (matchedDistricts dfCmp
        (pyStrip (pyLower "compare pune and nagpur"))).length) ∧
    search_ingres dfCmp scZero (fun _ => []) [] [] "compare pune and nagpur"
        none =
      Except.ok ⟨"compare", "Compared Districts",
        [⟨"Maharashtra", "Pune", "2022-2023", none, none, none, "Safe"⟩,
         ⟨"Maharashtra", "Nagpur", "2022-2023", none, none, none, "Critical"⟩,
         ⟨"Maharashtra", "Pune", "2023-2024", none, none, none, "Safe"⟩]⟩ ∧
    (QueryResult.type ⟨"none", "", []⟩ ≠ "compare") := by
  refine ⟨by decide, ?_, ?_⟩
  · have h := (search_ingres_compare_stage dfCmp scZero (fun _ => []) [] []
      "compare pune and nagpur" (by decide) (by decide)).1 (by decide)
    rw [h]
    decide
  · exact (search_ingres_compare_stage dfCmp scZero (fun _ => []) [] []
      "compare pune" (by decide) (by decide)).2 (by decide)
      ⟨"none", "", []⟩ (by decide)
/-- Simple computation rule: an empty year filter leaves the subset
untouched. -/
lemma applyYearFilter_nil (ctx : List Row) :
    applyYearFilter [] ctx = Except.ok ctx := rfl

/-- Relational form of the year filter: a run with a non-empty
requested-years list equals the run without years followed by one
application of the year filter to the accepted subset (the terminal
"none" result is returned unfiltered, as in the source). -/
lemma search_ingres_years_relation (df : List Row)
    (scorer : String → String → Nat) (encode : String → List Int)
    (db : List (List Int)) (META : List (PyKey × Snapshot)) (query : String)
    (yrs : List Nat) (hne : yrs ≠ []) :
    search_ingres df scorer encode db META query (some yrs) =
      (search_ingres df scorer encode db META query none).bind
        (fun res => if res.type = "none" then Except.ok res
          else (applyYearFilter yrs res.data).map
            (fun d => ⟨res.type, res.region, d⟩)) := by
  have hyf : yearFilterOf (some yrs) = yrs := by
    cases yrs with
    | nil => exact absurd rfl hne
    | cons a l => rfl
  have h0 : yearFilterOf none = [] := rfl
  simp only [search_ingres, hyf, h0]
  cases hSm : acceptOf scorer (pyStrip (pyLower query)) (stateChoices df) with
  | some best =>
      simp [applyYearFilter_nil, Except.map, Except.bind]
  | none =>
  cases hDm : acceptOf scorer (pyStrip (pyLower query)) (districtChoices df) with
  | some best =>
      simp [applyYearFilter_nil, Except.map, Except.bind]
  | none =>
  by_cases hc : containsSub "compare".data (pyStrip (pyLower query)).data = true ∧
      2 ≤ (matchedDistricts df (pyStrip (pyLower query))).length
  · simp only [if_pos hc]
    simp [applyYearFilter_nil, Except.map, Except.bind]
  · simp only [if_neg hc]
    cases hsem : semantic_search encode db META query 5 with
    | error e => rfl
    | ok results =>
        cases results with
        | nil => rfl
        | cons b t =>
            simp [applyYearFilter_nil, Except.map, Except.bind]

/-- When every row's assessment label parses, `astypeYear` succeeds and
pairs every row with its parsed leading year. -/
lemma astypeYear_ok (ctx : List Row)
    (hp : ∀ r ∈ ctx, (parseYear4 r.assessment_year).isSome) :
    astypeYear ctx = Except.ok
      (ctx.map (fun r => (r, (parseYear4 r.assessment_year).getD 0))) := by
  induction ctx with
  | nil => rfl
  | cons r rs ih =>
      obtain ⟨y, hy⟩ := Option.isSome_iff_exists.mp (hp r (by simp))
      have ihh := ih (fun x hx => hp x (by simp [hx]))
      simp [astypeYear, hy, ihh, Except.map]

/-- When every row's assessment label parses, the year filter is the pure
intersection of the subset with the requested years. -/
lemma applyYearFilter_ok (yrs : List Nat) (ctx : List Row) (hne : yrs ≠ [])
    (hp : ∀ r ∈ ctx, (parseYear4 r.assessment_year).isSome) :
    applyYearFilter yrs ctx = Except.ok
      (ctx.filter (fun r =>
        yrs.contains ((parseYear4 r.assessment_year).getD 0))) := by
  have hie : yrs.isEmpty = false := by
    cases yrs with
    | nil => exact absurd rfl hne
    | cons a l => rfl
  simp only [applyYearFilter, hie, Bool.false_eq_true, if_false,
    astypeYear_ok ctx hp, Except.map]
  congr 1
  rw [List.filter_map, List.map_map]
  simp [Function.comp_def]

/-- C4: with a non-empty requested-years set, the result of an accepting
stage is the unfiltered result with its record subset intersected with the
requested years: kind and region are unchanged, and an empty intersection
yields the original kind and region with an empty subset (still an `ok`
result, distinct from kind "none"). -/
theorem search_ingres_year_intersection (df : List Row)
    (scorer : String → String → Nat) (encode : String → List Int)
    (db : List (List Int)) (META : List (PyKey × Snapshot)) (query : String)
    (yrs : List Nat) (res : QueryResult) (hne : yrs ≠ [])
    (h0 : search_ingres df scorer encode db META query none = Except.ok res)
    (hk : res.type ≠ "none")
    (hp : ∀ r ∈ res.data, (parseYear4 r.assessment_year).isSome) :
    search_ingres df scorer encode db META query (some yrs) =
      Except.ok ⟨res.type, res.region,
        res.data.filter (fun r =>
          yrs.contains ((parseYear4 r.assessment_year).getD 0))⟩ := by
  rw [search_ingres_years_relation df scorer encode db META query yrs hne, h0]
  simp [Except.bind, hk, applyYearFilter_ok yrs res.data hne hp, Except.map]

theorem search_ingres_year_intersection_witness :
    search_ingres dfKar scKar (fun _ => []) [] [] "karnataka groundwater"
        none =
      Except.ok ⟨"state", "Karnataka",
        [⟨"Karnataka", "Bengaluru Urban", "2022-2023", none, none, none, "Safe"⟩,
         ⟨"Karnataka", "Mysuru", "2023-2024", none, none, none, "Safe"⟩]⟩ ∧
    search_ingres dfKar scKar (fun _ => []) [] [] "karnataka groundwater"
        (some [2023]) =
      Except.ok ⟨"state", "Karnataka",
        [⟨"Karnataka", "Mysuru", "2023-2024", none, none, none, "Safe"⟩]⟩ ∧
    search_ingres dfKar scKar (fun _ => []) [] [] "karnataka groundwater"
        (some [1999]) =
      Except.ok ⟨"state", "Karnataka", []⟩ := by
  have hbase : search_ingres dfKar scKar (fun _ => []) [] []
      "karnataka groundwater" none =
      Except.ok ⟨"state", "Karnataka",
        [⟨"Karnataka", "Bengaluru Urban", "2022-2023", none, none, none, "Safe"⟩,
         ⟨"Karnataka", "Mysuru", "2023-2024", none, none, none, "Safe"⟩]⟩ := by
    decide
  refine ⟨hbase, ?_, ?_⟩
  · have h := search_ingres_year_intersection dfKar scKar (fun _ => []) [] []
      "karnataka groundwater" [2023] _ (by decide) hbase (by decide) (by decide)
    rw [h]
    decide
  · have h := search_ingres_year_intersection dfKar scKar (fun _ => []) [] []
      "karnataka groundwater" [1999] _ (by decide) hbase (by decide) (by decide)
    rw [h]
    decide

/-- C10: whenever the run without a year filter succeeds and every row of
the accepted subset has a 4-digit leading year in its assessment label, the
run with any requested-years list also succeeds: the unguarded
`astype(int)` parse cannot fail under that precondition, so `search_ingres`
raises no error. -/
theorem search_ingres_total_under_year_precondition (df : List Row)
    (scorer : String → String → Nat) (encode : String → List Int)
    (db : List (List Int)) (META : List (PyKey × Snapshot)) (query : String)
    (yrs : List Nat) (res : QueryResult)
    (h0 : search_ingres df scorer encode db META query none = Except.ok res)
    (hp : ∀ r ∈ res.data, (parseYear4 r.assessment_year).isSome) :
    ∃ res2 : QueryResult,
      search_ingres df scorer encode db META query (some yrs) =
        Except.ok res2 := by
  cases yrs with
  | nil =>
      exact ⟨res, by rw [search_ingres_empty_years_eq_none]; exact h0⟩
  | cons a l =>
      rw [search_ingres_years_relation df scorer encode db META query (a :: l)
        (by simp), h0]
      by_cases hk : res.type = "none"
      · exact ⟨res, by simp [Except.bind, hk]⟩
      · refine ⟨⟨res.type, res.region,
          res.data.filter (fun r =>
            (a :: l).contains ((parseYear4 r.assessment_year).getD 0))⟩, ?_⟩
        simp [Except.bind, hk,
          applyYearFilter_ok (a :: l) res.data (by simp) hp, Except.map]

theorem search_ingres_total_under_year_precondition_witness :
    ∃ res2 : QueryResult,
      search_ingres dfKar scKar (fun _ => []) [] [] "karnataka groundwater"
        (some [2024, 2025]) = Except.ok res2 := by
  refine search_ingres_total_under_year_precondition dfKar scKar (fun _ => [])
    [] [] "karnataka groundwater" [2024, 2025]
    ⟨"state", "Karnataka",
      [⟨"Karnataka", "Bengaluru Urban", "2022-2023", none, none, none, "Safe"⟩,
       ⟨"Karnataka", "Mysuru", "2023-2024", none, none, none, "Safe"⟩]⟩
    (by decide) (by decide)
lemma enumFrom_length (k : Nat) (l : List α) :
    (enumFrom k l).length = l.length := by
  induction l generalizing k with
  | nil => rfl
  | cons a as ih => simp [enumFrom, ih]

lemma enumFrom_mem {l : List α} {p : Nat × α} :
    ∀ {k : Nat}, p ∈ enumFrom k l → k ≤ p.1 ∧ p.1 < k + l.length := by
  induction l with
  | nil => intro k h; simp [enumFrom] at h
  | cons a as ih =>
      intro k h
      rcases List.mem_cons.mp h with h1 | h1
      · subst h1; simp
      · have := ih h1
        constructor <;> [omega; (simp only [List.length_cons]; omega)]

lemma indexSearch_entries (db : List (List Int)) (qv : List Int) (k : Nat) :
    ∀ p ∈ indexSearch db qv k,
      p.2 = -1 ∨ ∃ j : Nat, p.2 = (j : Int) ∧ j < db.length := by
  intro p hp
  unfold indexSearch at hp
  rcases List.mem_append.mp hp with h | h
  · have h2 := (List.mem_insertionSort _).mp (List.mem_of_mem_take h)
    rcases List.mem_map.mp h2 with ⟨q, hq, hfq⟩
    have hb := enumFrom_mem hq
    refine Or.inr ⟨q.1, ?_, by omega⟩
    rw [← hfq]
  · exact Or.inl ((List.mem_replicate.mp h).2.symm ▸ rfl)

lemma indexSearch_head (db : List (List Int)) (qv : List Int) (k : Nat)
    (hdb : db ≠ []) (hk : 0 < k) :
    ∃ d rest, ∃ j : Nat, indexSearch db qv k = (d, (j : Int)) :: rest ∧
      j < db.length := by
  have hlen : (List.insertionSort (fun a b : Int × Int => a.1 ≤ b.1)
      ((enumFrom 0 db).map (fun p => (sqDist p.2 qv, (p.1 : Int))))).length =
      db.length := by
    rw [(List.perm_insertionSort _ _).length_eq, List.length_map,
      enumFrom_length]
  cases hs : List.insertionSort (fun a b : Int × Int => a.1 ≤ b.1)
      ((enumFrom 0 db).map (fun p => (sqDist p.2 qv, (p.1 : Int)))) with
  | nil =>
      rw [hs] at hlen
      exact absurd (List.length_eq_zero.mp hlen.symm) hdb
  | cons a t =>
      have ha : a ∈ (enumFrom 0 db).map
          (fun p => (sqDist p.2 qv, (p.1 : Int))) := by
        have : a ∈ List.insertionSort (fun a b : Int × Int => a.1 ≤ b.1)
            ((enumFrom 0 db).map (fun p => (sqDist p.2 qv, (p.1 : Int)))) := by
          rw [hs]; exact List.mem_cons_self _ _
        exact (List.mem_insertionSort _).mp this
      rcases List.mem_map.mp ha with ⟨q, hq, hfq⟩
      have hb := enumFrom_mem hq
      cases k with
      | zero => omega
      | succ k2 =>
          refine ⟨a.1, t.take k2 ++ List.replicate (k2 + 1 - db.length) (0, -1),
            q.1, ?_, by omega⟩
          simp only [indexSearch]
          rw [hs, List.take_succ_cons]
          have ha2 : a = (a.1, (q.1 : Int)) := by
            rw [← hfq]
          rw [← List.cons_append, ← ha2]

lemma collectHits_ok_of_valid (META : List (PyKey × Snapshot)) :
    ∀ hits : List (Int × Int),
      (∀ p ∈ hits, p.2 = -1 ∨ ∃ j : Nat, p.2 = (j : Int) ∧
        (lookupMeta META (PyKey.pstr (toString p.2))).isSome) →
      ∃ l, collectHits hits META = Except.ok l := by
  intro hits
  induction hits with
  | nil => exact fun _ => ⟨[], rfl⟩
  | cons p rest ih =>
      intro hv
      obtain ⟨l, hl⟩ := ih (fun q hq => hv q (List.mem_cons_of_mem _ hq))
      rcases hv p (List.mem_cons_self _ _) with h1 | ⟨j, hj, hm⟩
      · refine ⟨l, ?_⟩
        obtain ⟨d, i⟩ := p
        simp only at h1
        subst h1
        simpa [collectHits] using hl
      · obtain ⟨m, hm2⟩ := Option.isSome_iff_exists.mp hm
        refine ⟨hitOfMeta p.1 m :: l, ?_⟩
        obtain ⟨d, i⟩ := p
        simp only at hj
        subst hj
        have hne : (((j : Int)) == (-1 : Int)) = false := by
          simp [beq_eq_false_iff_ne]
        simp only [collectHits, hne, Bool.false_eq_true, if_false, hm2, hl,
          Except.map]

/-- C3: when the state, district and comparison stages all decline and the
loaded artifacts are consistent with the corpus (index cardinality matches,
all row identifiers present in the metadata store), a non-empty corpus
makes the semantic fallback return at least one hit, and `search_ingres`
returns kind "semantic" with the best hit's district as region and all
corpus rows sharing the best hit's exact (district, state) pair; kind
"none" is returned exactly for the empty corpus. -/
theorem search_ingres_semantic_fallback (df : List Row)
    (scorer : String → String → Nat) (encode : String → List Int)
    (db : List (List Int)) (META : List (PyKey × Snapshot)) (query : String)
    (hlen : db.length = df.length)
    (hMETA : ∀ i : Nat, i < df.length →
      (lookupMeta META (PyKey.pstr (toString ((i : Nat) : Int)))).isSome)
    (hS : acceptOf scorer (pyStrip (pyLower query)) (stateChoices df) = none)
    (hD : acceptOf scorer (pyStrip (pyLower query)) (districtChoices df) = none)
    (hC : ¬(containsSub "compare".data (pyStrip (pyLower query)).data = true ∧
        2 ≤ (matchedDistricts df (pyStrip (pyLower query))).length)) :
    (df = [] → search_ingres df scorer encode db META query none =
        Except.ok ⟨"none", "", []⟩) ∧
    (df ≠ [] → ∃ (h : Hit) (t : List Hit),
      semantic_search encode db META query 5 = Except.ok (h :: t) ∧
      search_ingres df scorer encode db META query none = Except.ok
        ⟨"semantic", h.district,
          df.filter (fun r => r.district == h.district && r.state == h.state)⟩) := by
  constructor
  · intro hdf
    subst hdf
    have hdb : db = [] := by
      apply List.length_eq_zero.mp
      rw [hlen]
      rfl
    subst hdb
    have h1 : acceptOf scorer (pyStrip (pyLower query))
        (stateChoices ([] : List Row)) = none := rfl
    have h2 : acceptOf scorer (pyStrip (pyLower query))
        (districtChoices ([] : List Row)) = none := rfl
    have hni : ¬(containsSub "compare".data
        (pyStrip (pyLower query)).data = true ∧
        2 ≤ (matchedDistricts ([] : List Row)
          (pyStrip (pyLower query))).length) :=
      fun hcc => Nat.not_succ_le_zero 1 hcc.2
    simp only [search_ingres, h1, h2]
    rw [if_neg hni]
    rfl
  · intro hdf
    have hdb : db ≠ [] := by
      intro h
      apply hdf
      apply List.length_eq_zero.mp
      rw [← hlen, h]
      rfl
    obtain ⟨d, rest, j, hsearch, hj⟩ :=
      indexSearch_head db (encode query) 5 hdb (by decide)
    obtain ⟨m, hm2⟩ := Option.isSome_iff_exists.mp (hMETA j (hlen ▸ hj))
    have hvalid : ∀ p ∈ indexSearch db (encode query) 5,
        p.2 = -1 ∨ ∃ j2 : Nat, p.2 = (j2 : Int) ∧
          (lookupMeta META (PyKey.pstr (toString p.2))).isSome := by
      intro p hp
      rcases indexSearch_entries db (encode query) 5 p hp with h1 | ⟨j2, hj2, hlt⟩
      · exact Or.inl h1
      · refine Or.inr ⟨j2, hj2, ?_⟩
        rw [hj2]
        exact hMETA j2 (hlen ▸ hlt)
    obtain ⟨l2, hl2⟩ := collectHits_ok_of_valid META rest
      (fun p hp => hvalid p (by rw [hsearch]; exact List.mem_cons_of_mem _ hp))
    have hne : (((j : Int)) == (-1 : Int)) = false := by
      simp [beq_eq_false_iff_ne]
    have hsem : semantic_search encode db META query 5 =
        Except.ok (hitOfMeta d m :: l2) := by
      simp only [semantic_search, hsearch, collectHits, hne,
        Bool.false_eq_true, if_false, hm2, hl2, Except.map]
    refine ⟨hitOfMeta d m, l2, hsem, ?_⟩
    simp only [search_ingres, hS, hD]
    rw [if_neg hC]
    simp only [hsem]
    simp [applyYearFilter_nil, Except.map, yearFilterOf]

/-- Concrete two-row corpus with consistent artifacts for the semantic
fallback witness. -/
def dfSem : List Row :=
  [⟨"Karnataka", "Bengaluru Urban", "2022-2023", none, none, none, "Safe"⟩,
   ⟨"Maharashtra", "Pune", "2022-2023", none, none, none, "Safe"⟩]

/-- Stored index vectors of the witness (one per corpus row). -/
def dbSem : List (List Int) := [[0], [5]]

/-- Encoder instance of the witness. -/
def encSem : String → List Int := fun _ => [1]

/-- Metadata store of the witness, keyed by stringified row index. -/
def metaSem : List (PyKey × Snapshot) :=
  [(PyKey.pstr "0",
    snapOf ⟨"Karnataka", "Bengaluru Urban", "2022-2023", none, none, none, "Safe"⟩),
   (PyKey.pstr "1",
    snapOf ⟨"Maharashtra", "Pune", "2022-2023", none, none, none, "Safe"⟩)]

theorem search_ingres_semantic_fallback_witness :
    search_ingres dfSem scZero encSem dbSem metaSem "water level" none =
      Except.ok ⟨"semantic", "Bengaluru Urban",
        [⟨"Karnataka", "Bengaluru Urban", "2022-2023", none, none, none, "Safe"⟩]⟩ ∧
    search_ingres ([] : List Row) scZero encSem ([] : List (List Int)) []
        "water level" none = Except.ok ⟨"none", "", []⟩ := by
  constructor
  · obtain ⟨h, t, hsem, hres⟩ :=
      (search_ingres_semantic_fallback dfSem scZero encSem dbSem metaSem
        "water level" (by decide) (by decide) (by decide) (by decide)
        (by decide)).2 (by decide)
    have hconc : semantic_search encSem dbSem metaSem "water level" 5 =
        Except.ok (hitOfMeta 1
            (snapOf ⟨"Karnataka", "Bengaluru Urban", "2022-2023", none, none,
              none, "Safe"⟩) ::
          [hitOfMeta 16
            (snapOf ⟨"Maharashtra", "Pune", "2022-2023", none, none, none,
              "Safe"⟩)]) := by
      decide
    rw [hconc] at hsem
    injection hsem with hsem2
    injection hsem2 with hh ht
    subst hh
    rw [hres]
    decide
  · exact (search_ingres_semantic_fallback ([] : List Row) scZero encSem
      ([] : List (List Int)) [] "water level" (by decide) (by decide)
      (by decide) (by decide) (by decide)).1 rfl

/-- C6 counterexample: a hit whose row identifier is missing from the
metadata store crashes the semantic fallback with a `KeyError` instead of
being skipped: with one stored vector and an empty metadata store (stale
artifacts), the single nearest hit has index 0 and `META[str(0)]` fails. -/
theorem semantic_search_missing_key_crashes :
    semantic_search (fun _ => [0]) [[0]] [] "any query" 5 =
      Except.error "KeyError: 0" := by decide

/-- C6 amended: `semantic_search` defensively skips only the FAISS
no-neighbor sentinel `idx == -1`; a returned hit whose row identifier is
absent from the metadata store raises `KeyError` (the lookup
`META[str(idx)]` is unguarded), it is not treated as "no candidate". -/
theorem semantic_search_skips_only_sentinel
    (encode : String → List Int) (db : List (List Int))
    (META : List (PyKey × Snapshot)) (query : String) (topK : Nat)
    (d idx : Int) (rest : List (Int × Int))
    (hsearch : indexSearch db (encode query) topK = (d, idx) :: rest)
    (hidx : (idx == -1) = false)
    (hmiss : lookupMeta META (PyKey.pstr (toString idx)) = none) :
    semantic_search encode db META query topK =
      Except.error ("KeyError: " ++ toString idx) ∧
    (∀ (d2 : Int) (hits : List (Int × Int)) (M : List (PyKey × Snapshot)),
      collectHits ((d2, -1) :: hits) M = collectHits hits M) := by
  constructor
  · simp only [semantic_search, hsearch, collectHits, hidx,
      Bool.false_eq_true, if_false, hmiss]
  · intro d2 hits M
    simp [collectHits]

theorem semantic_search_skips_only_sentinel_witness :
    semantic_search (fun _ => [3]) [[3]] [] "q" 5 =
      Except.error "KeyError: 0" ∧
    collectHits [((7 : Int), (-1 : Int))] [] = collectHits [] [] :=
  ⟨(semantic_search_skips_only_sentinel (fun _ => [3]) [[3]] [] "q" 5 0 0
      (List.replicate 4 ((0 : Int), (-1 : Int))) (by decide) (by decide)
      (by decide)).1,
   (semantic_search_skips_only_sentinel (fun _ => [3]) [[3]] [] "q" 5 0 0
      (List.replicate 4 ((0 : Int), (-1 : Int))) (by decide) (by decide)
      (by decide)).2 7 [] []⟩

/-- Concrete one-row corpus for the builder key-type bug. -/
def dfBuild : List Row :=
  [⟨"Karnataka", "Bengaluru Urban", "2022-2023", none, none, none, "Safe"⟩]

/-- C7: in the fresh-build branch the in-memory metadata store is keyed by
the INTEGER row index (`META[i] = ...`), while `semantic_search` looks up
the STRING key `str(idx)`; so right after a fresh build the key "0" is
absent (only the integer key 0 exists) and the lookup path raises
`KeyError` — end to end, a fresh `buildOrLoad` on an empty disk followed by
`semantic_search` on its in-memory artifacts fails.  Only the persisted
JSON file (reloaded on the next process start) carries the stringified
keys the claim and the spec describe. -/
theorem buildMetaFresh_int_keys_break_lookup :
    lookupMeta (buildMetaFresh dfBuild) (PyKey.pstr "0") = none ∧
    lookupMeta (buildMetaFresh dfBuild) (PyKey.pint 0) =
      some (snapOf ⟨"Karnataka", "Bengaluru Urban", "2022-2023", none, none,
        none, "Safe"⟩) ∧
    collectHits [((0 : Int), (0 : Int))] (buildMetaFresh dfBuild) =
      Except.error "KeyError: 0" ∧
    semantic_search (fun _ => [0])
      (buildOrLoad ⟨none, none⟩ dfBuild (fun _ => [0])).2.1
      (buildOrLoad ⟨none, none⟩ dfBuild (fun _ => [0])).2.2 "q" 5 =
      Except.error "KeyError: 0" ∧
    lookupMeta (dumpLoadMeta (buildMetaFresh dfBuild)) (PyKey.pstr "0") =
      some (snapOf ⟨"Karnataka", "Bengaluru Urban", "2022-2023", none, none,
        none, "Safe"⟩) := by
  decide
